import Mathlib

/-!
Verification of the Fishbowl gateway's session/forwarding core.

The definitions below are shallow embeddings of the JavaScript source:
- `server.js` (REST-upstream variant): module-level `fishbowlToken` /
  `tokenExpiration`, `ensureAuthenticated`, `login`, `makeRequest`,
  `/api/health`.
- `Index.js` (REST-upstream class variant): `FishbowlClient` with `token`,
  `login`, `ensureAuthenticated`, `getInventory`, `logout`, `/health`.
- `unnamed/part_000` and `unnamed/part_004` (XML/socket variants):
  `FishbowlClient` with `sessionToken`/`userId`, `sendRequest` chunk
  accumulation, `login`, `getInventory`, `logout`.
- `unnamed/part_002` (older XML/socket variant): `getInventory` without a
  status-code check.

Network I/O is modelled by passing each upstream response in as an explicit
parameter; JavaScript exceptions are modelled with `Except`; module-level /
instance mutable state is threaded explicitly.  JavaScript truthiness of the
token and expiration values is modelled exactly (a `null`/absent value and the
empty string / number 0 are falsy).
-/

/-- Decidable equality on `Except`, needed so outcome records can be compared
by `decide` in concrete evaluations. -/
instance instDecidableEqExcept {ε α : Type} [DecidableEq ε] [DecidableEq α] :
    DecidableEq (Except ε α) := fun x y =>
  match x, y with
  | .ok a, .ok b =>
      if h : a = b then isTrue (by rw [h])
      else isFalse (by intro hc; cases hc; exact h rfl)
  | .error a, .error b =>
      if h : a = b then isTrue (by rw [h])
      else isFalse (by intro hc; cases hc; exact h rfl)
  | .ok _, .error _ => isFalse (by intro hc; cases hc)
  | .error _, .ok _ => isFalse (by intro hc; cases hc)

namespace Fishbowl

/-- JS truthiness of an optional string value (`null`/`undefined` and `""` are
falsy). -/
def jsTruthyStr : Option String → Bool
  | none => false
  | some s => s ≠ ""

/-- JS truthiness of an optional number value (`null`/`undefined` and `0` are
falsy). -/
def jsTruthyInt : Option Int → Bool
  | none => false
  | some v => v ≠ 0

/-! ## REST variant: `server.js` -/

/-- The module-level mutable authentication state of `server.js`:
`let fishbowlToken = null; let tokenExpiration = null;`. -/
structure ServerState where
  fishbowlToken : Option String
  tokenExpiration : Option Int
deriving DecidableEq, Repr

/-- `const TOKEN_REFRESH_THRESHOLD = 10 * 60 * 1000` (server.js line 223). -/
def TOKEN_REFRESH_THRESHOLD : Int := 10 * 60 * 1000

/-- Token lifetime assumed by `login`: `24 * 60 * 60 * 1000` ms
(server.js line 309). -/
def TOKEN_LIFETIME : Int := 24 * 60 * 60 * 1000

/-- Startup configuration relevant to `login`: whether
`FISHBOWL_USERNAME` / `FISHBOWL_PASSWORD` are set. -/
structure Config where
  hasUsername : Bool
  hasPassword : Bool
deriving DecidableEq, Repr

/-- Outcome of the upstream `POST /api/login` call as seen by `login`:
either a 2xx response whose body may or may not carry a (truthy) `token`
field, or a thrown transport/HTTP error. -/
inductive LoginResult where
  | ok (respToken : Option String)
  | fail (msg : String)
deriving DecidableEq, Repr

/-- The guard of `ensureAuthenticated` (server.js line 259):
`!fishbowlToken || (tokenExpiration && now > tokenExpiration - TOKEN_REFRESH_THRESHOLD)`. -/
def needsLogin (s : ServerState) (now : Int) : Bool :=
  !jsTruthyStr s.fishbowlToken ||
    (jsTruthyInt s.tokenExpiration &&
      decide (now > (s.tokenExpiration.getD 0) - TOKEN_REFRESH_THRESHOLD))

/-- `login` (server.js lines 270-342).  Returns the new module state and
either `.ok true` (token stored) or a thrown error.  On every failure path
the stored state is left untouched. -/
def login (cfg : Config) (now : Int) (r : LoginResult) (s : ServerState) :
    ServerState × Except String Bool :=
  if !(cfg.hasUsername && cfg.hasPassword) then
    (s, .error "Missing Fishbowl credentials. Please check your .env file.")
  else
    match r with
    | .ok respToken =>
        if jsTruthyStr respToken then
          ({ fishbowlToken := respToken, tokenExpiration := some (now + TOKEN_LIFETIME) },
           .ok true)
        else
          (s, .error "Authentication failed - no token received")
    | .fail m => (s, .error m)

/-- Outcome of one `ensureAuthenticated` middleware invocation: the resulting
module state, how many `login()` calls were performed, and whether `next()`
was reached (`false` means the middleware answered 401). -/
structure AuthOutcome where
  state : ServerState
  loginCalls : Nat
  proceeded : Bool
deriving DecidableEq, Repr

/-- `ensureAuthenticated` (server.js lines 255-267). -/
def ensureAuthenticated (cfg : Config) (now : Int) (r : LoginResult)
    (s : ServerState) : AuthOutcome :=
  if needsLogin s now then
    match login cfg now r s with
    | (s2, .ok _) => ⟨s2, 1, true⟩
    | (s2, .error _) => ⟨s2, 1, false⟩
  else ⟨s, 0, true⟩

/-! ## REST variant: `Index.js` -/

/-- The `FishbowlClient` session state of `Index.js`: `this.token`. -/
structure IndexState where
  token : Option String
deriving DecidableEq, Repr

/-- `FishbowlClient.login` (Index.js lines 24-48): stores the token only if
the response body carries a truthy `token`; otherwise throws, leaving
`this.token` untouched. -/
def idxLogin (r : LoginResult) (c : IndexState) : IndexState × Except String Unit :=
  match r with
  | .ok respToken =>
      if jsTruthyStr respToken then ({ token := respToken }, .ok ())
      else (c, .error "Login failed: Login failed: No token received")
  | .fail m => (c, .error ("Login failed: " ++ m))

/-- `FishbowlClient.ensureAuthenticated` (Index.js lines 50-55). -/
def idxEnsureAuthenticated (r : LoginResult) (c : IndexState) :
    IndexState × Except String Unit × Nat :=
  if !jsTruthyStr c.token then
    match idxLogin r c with
    | (c2, .ok _) => (c2, .ok (), 1)
    | (c2, .error m) => (c2, .error m, 1)
  else (c, .ok (), 0)

/-! ## REST variant: `makeRequest` (server.js lines 345-381) -/

/-- Outcome of one `axios({...})` call inside `makeRequest`: a 2xx response
with a data payload, an HTTP error response carrying a status code, or a
thrown transport error with no response. -/
inductive HttpResult where
  | ok (data : String)
  | errStatus (status : Nat) (msg : String)
  | errNet (msg : String)
deriving DecidableEq, Repr

/-- Outcome of one `makeRequest` invocation: new module state, the returned
data or thrown error, the number of upstream request attempts for the
operation itself, and the number of `login()` calls performed. -/
structure ReqOutcome where
  state : ServerState
  result : Except String String
  attempts : Nat
  loginCalls : Nat
deriving DecidableEq, Repr

/-- `makeRequest` (server.js lines 345-381): one attempt; on a 401 error
response, one `login()` and exactly one retry; any other failure (and a
failing retry) is rethrown. -/
def makeRequest (cfg : Config) (now : Int) (s : ServerState)
    (first : HttpResult) (loginR : LoginResult) (second : HttpResult) :
    ReqOutcome :=
  match first with
  | .ok d => ⟨s, .ok d, 1, 0⟩
  | .errStatus 401 _ =>
      match login cfg now loginR s with
      | (s2, .ok _) =>
          match second with
          | .ok d => ⟨s2, .ok d, 2, 1⟩
          | .errStatus _ m => ⟨s2, .error m, 2, 1⟩
          | .errNet m => ⟨s2, .error m, 2, 1⟩
      | (s2, .error m) => ⟨s2, .error m, 1, 1⟩
  | .errStatus _ m => ⟨s, .error m, 1, 0⟩
  | .errNet m => ⟨s, .error m, 1, 0⟩

/-! ## XML/socket variants: `unnamed/part_000`, `part_002`, `part_004` -/

/-- The `FishbowlClient` session state of the XML/socket variants:
`this.client` (connection), `this.sessionToken`, `this.userId`. -/
structure XmlState where
  connected : Bool
  sessionToken : Option String
  userId : Option String
deriving DecidableEq, Repr

/-- The decoded upstream login response as inspected by the XML variants:
the `StatusCode[0]` / `StatusMessage[0]` of `LoginRs` (absent levels collapse
to `none`), and the `Ticket[0]` element's `Key[0]` / `UserID[0]` when the
ticket is present. -/
structure LoginResp where
  statusCode : Option String
  statusMessage : Option String
  ticket : Option (String × String)
deriving DecidableEq, Repr

/-- The decoded upstream response to an operation request as inspected by the
XML variants: the `StatusCode[0]` / `StatusMessage[0]` of the matching
`...Rs` element; `statusCode = none` models any absent level in the checked
access chain. -/
structure OpResp where
  statusCode : Option String
  statusMessage : Option String
deriving DecidableEq, Repr

/-- `FishbowlClient.login` of `part_000` (lines 77-123): connects if needed;
on `StatusCode '1000'` with a ticket present it stores `sessionToken` and
`userId`; every other shape throws `Login failed: <message or Unknown
error>` leaving the session fields untouched. -/
def p0_login (r : LoginResp) (s : XmlState) : XmlState × Except String Unit :=
  let s1 := { s with connected := true }
  if r.statusCode = some "1000" then
    match r.ticket with
    | some (key, uid) =>
        ({ s1 with sessionToken := some key, userId := some uid }, .ok ())
    | none =>
        (s1, .error ("Login failed: " ++ r.statusMessage.getD "Unknown error"))
  else
    (s1, .error ("Login failed: " ++ r.statusMessage.getD "Unknown error"))

/-- Status check of `part_000`'s `getInventory` (lines 152-162): throws only
when a `StatusCode` is present in the response and differs from `'1000'`;
a missing status code passes the result through. -/
def p0_checkInventoryStatus (r : OpResp) : Except String OpResp :=
  match r.statusCode with
  | some c =>
      if c ≠ "1000" then
        .error ("Failed to get inventory: " ++ r.statusMessage.getD "Unknown error")
      else .ok r
  | none => .ok r

/-- Outcome of one XML-variant operation: new client state, result or thrown
error, number of operation requests written to the socket, and number of
login round-trips performed. -/
structure XmlOpOutcome where
  state : XmlState
  result : Except String OpResp
  requests : Nat
  loginCalls : Nat
deriving DecidableEq, Repr

/-- `FishbowlClient.getInventory` of `part_000` (lines 132-165):
`ensureAuthenticated` (login only when `sessionToken` is falsy), then one
`PartQuantityRq` round-trip and the status check.  No re-login and no retry
happen on a non-1000 status. -/
def p0_getInventory (loginR : LoginResp) (opR : OpResp) (s : XmlState) :
    XmlOpOutcome :=
  if !jsTruthyStr s.sessionToken then
    match p0_login loginR s with
    | (s2, .ok _) =>
        match p0_checkInventoryStatus opR with
        | .ok r => ⟨s2, .ok r, 1, 1⟩
        | .error m => ⟨s2, .error m, 1, 1⟩
    | (s2, .error m) => ⟨s2, .error m, 0, 1⟩
  else
    match p0_checkInventoryStatus opR with
    | .ok r => ⟨s, .ok r, 1, 0⟩
    | .error m => ⟨s, .error m, 1, 0⟩

/-- `FishbowlClient.login` of `part_002` (lines 71-103): stores the ticket
key and user id whenever `FbiXml.Ticket[0]` is present, with no status-code
check at all; otherwise throws `Login failed`. -/
def p2_login (r : LoginResp) (s : XmlState) : XmlState × Except String Unit :=
  let s1 := { s with connected := true }
  match r.ticket with
  | some (key, uid) =>
      ({ s1 with sessionToken := some key, userId := some uid }, .ok ())
  | none => (s1, .error "Login failed")

/-- `FishbowlClient.getInventory` of `part_002` (lines 105-128): login if no
session token, one `InventoryQtyRq` round-trip, and the decoded result is
returned unconditionally — there is no status-code check. -/
def p2_getInventory (loginR : LoginResp) (opR : OpResp) (s : XmlState) :
    XmlOpOutcome :=
  if !jsTruthyStr s.sessionToken then
    match p2_login loginR s with
    | (s2, .ok _) => ⟨s2, .ok opR, 1, 1⟩
    | (s2, .error m) => ⟨s2, .error m, 0, 1⟩
  else ⟨s, .ok opR, 1, 0⟩

/-- The decoded login response as inspected by `part_004`'s `login` (lines
100-150), whose ticket fields `Key` and `UserID` are each optional. -/
structure P4LoginResp where
  statusCode : Option String
  statusMessage : Option String
  ticket : Option (Option String × Option String)
deriving DecidableEq, Repr

/-- `FishbowlClient.login` of `part_004` (lines 100-150): requires the
`LoginRs.StatusCode` chain to be present; on `'1000'` with a ticket present
it stores the (possibly absent) key and user id; a non-1000 code throws with
the code and message; any other shape throws `Unexpected response format`. -/
def p4_login (r : P4LoginResp) (s : XmlState) : XmlState × Except String Unit :=
  let s1 := { s with connected := true }
  match r.statusCode with
  | some c =>
      if c = "1000" then
        match r.ticket with
        | some (key, uid) =>
            ({ s1 with sessionToken := key, userId := uid }, .ok ())
        | none => (s1, .error "Login failed: Unexpected response format")
      else
        (s1, .error ("Login failed: " ++ c ++ " - " ++
          r.statusMessage.getD "Unknown error"))
  | none => (s1, .error "Login failed: Unexpected response format")

/-! ## Logout (C9, C10) -/

/-- The structured logout result object returned by the XML variants'
`logout` (never thrown). -/
structure LogoutResult where
  success : Bool
  message : Option String
  error : Option String
deriving DecidableEq, Repr

/-- `FishbowlClient.logout` of `part_000` (lines 237-270): early success with
no network call when no session token is held; otherwise one upstream
round-trip, clearing `sessionToken` and `userId` whether it succeeds or
fails, returning a structured result in both cases.  The final `Nat` counts
upstream requests. -/
def p0_logout (upstream : Except String Unit) (s : XmlState) :
    XmlState × LogoutResult × Nat :=
  if !jsTruthyStr s.sessionToken then
    (s, ⟨true, some "Not logged in", none⟩, 0)
  else
    match upstream with
    | .ok _ =>
        ({ s with sessionToken := none, userId := none },
         ⟨true, some "Successfully logged out", none⟩, 1)
    | .error m =>
        ({ s with sessionToken := none, userId := none },
         ⟨false, none, some m⟩, 1)

/-- `FishbowlClient.logout` of `part_004` (lines 408-441): identical control
flow to `part_000`'s logout, with a different success message. -/
def p4_logout (upstream : Except String Unit) (s : XmlState) :
    XmlState × LogoutResult × Nat :=
  if !jsTruthyStr s.sessionToken then
    (s, ⟨true, some "Not logged in", none⟩, 0)
  else
    match upstream with
    | .ok _ =>
        ({ s with sessionToken := none, userId := none },
         ⟨true, some "Successfully logged out of Fishbowl", none⟩, 1)
    | .error m =>
        ({ s with sessionToken := none, userId := none },
         ⟨false, none, some m⟩, 1)

/-- `FishbowlClient.logout` of `Index.js` (lines 184-211): early success with
no network call when no token is held; on upstream failure it rethrows
(`Logout failed: ...`) and leaves the token in place. -/
def idxLogout (upstream : Except String Unit) (c : IndexState) :
    IndexState × Except String LogoutResult × Nat :=
  if !jsTruthyStr c.token then
    (c, .ok ⟨true, some "Already logged out", none⟩, 0)
  else
    match upstream with
    | .ok _ => (⟨none⟩, .ok ⟨true, some "Successfully logged out", none⟩, 1)
    | .error m => (c, .error ("Logout failed: " ++ m), 1)

/-! ## `getInventory` pipeline of `Index.js` and the `/mcp/execute` routes -/

/-- `FishbowlClient.getInventory` of `Index.js` (lines 64-78):
`ensureAuthenticated` then one `GET /api/parts/inventory` call.  The final
`Nat` counts network calls (a login round-trip counts as one). -/
def idx_getInventory (loginR : LoginResult) (httpR : HttpResult)
    (c : IndexState) : IndexState × Except String String × Nat :=
  match idxEnsureAuthenticated loginR c with
  | (c2, .ok _, n) =>
      match httpR with
      | .ok d => (c2, .ok d, n + 1)
      | .errStatus _ m => (c2, .error ("Failed to get inventory: " ++ m), n + 1)
      | .errNet m => (c2, .error ("Failed to get inventory: " ++ m), n + 1)
  | (c2, .error m, n) => (c2, .error m, n)

/-- The `parameters` object of an inbound `/mcp/execute` body, as far as the
`getInventory` case inspects it. -/
structure Params where
  partNumber : Option String
deriving DecidableEq, Repr

/-- The `getInventory` case of `part_000`'s `/mcp/execute` handler (lines
306-312): `if (!parameters || !parameters.partNumber) throw ...` before any
client call; only then `fishbowl.getInventory`.  The final `Nat` counts
network calls (socket requests plus login round-trips). -/
def p0_executeGetInventory (params : Option Params) (loginR : LoginResp)
    (opR : OpResp) (s : XmlState) : XmlState × Except String OpResp × Nat :=
  match params with
  | none => (s, .error "Part number is required", 0)
  | some p =>
      if !jsTruthyStr p.partNumber then
        (s, .error "Part number is required", 0)
      else
        let o := p0_getInventory loginR opR s
        (o.state, o.result, o.requests + o.loginCalls)

/-- The `getInventory` case of `Index.js`'s `/mcp/execute` handler (lines
228-231): no parameter validation — `parameters.partNumber` is passed
straight to `getInventory` (a missing field rides along as `undefined`; only
a wholly absent `parameters` object crashes with a TypeError before any
network call). -/
def idx_executeGetInventory (params : Option Params) (loginR : LoginResult)
    (httpR : HttpResult) (c : IndexState) :
    IndexState × Except String String × Nat :=
  match params with
  | none =>
      (c, .error "Cannot read properties of undefined (reading 'partNumber')", 0)
  | some _ => idx_getInventory loginR httpR c

/-! ## Health endpoints (C8) -/

/-- The `/api/health` response of `server.js` (lines 386-396). -/
structure ServerHealthResp where
  status : String
  authenticated : Bool
  tokenStatus : String
  tokenExpiresIn : Option Int
deriving DecidableEq, Repr

/-- The `/api/health` handler of `server.js` (lines 386-396): a pure read of
the module state.  Returns the response, the (unchanged) state, and the
number of upstream calls made (zero). -/
def serverHealth (now : Int) (s : ServerState) :
    ServerHealthResp × ServerState × Nat :=
  (⟨"ok",
    jsTruthyStr s.fishbowlToken,
    (if jsTruthyStr s.fishbowlToken then "valid" else "not authenticated"),
    (if jsTruthyInt s.tokenExpiration then
       some (max 0 ((s.tokenExpiration.getD 0 - now).fdiv 1000))
     else none)⟩,
   s, 0)

/-- The `/health` response of `part_000` (lines 292-298): status and version
only (the timestamp is the wall clock, irrelevant to the claims). -/
structure P0HealthResp where
  status : String
  version : String
deriving DecidableEq, Repr

/-- The `/health` handler of `part_000` (lines 292-298): a constant body with
no reference to the client state. -/
def p0_health (s : XmlState) : P0HealthResp × XmlState × Nat :=
  (⟨"healthy", "1.0.0"⟩, s, 0)

/-- The `/health` response of `Index.js` (lines 218-220): status only. -/
structure IdxHealthResp where
  status : String
deriving DecidableEq, Repr

/-- The `/health` handler of `Index.js` (lines 218-220): a constant body with
no reference to the client state. -/
def idx_health (c : IndexState) : IdxHealthResp × IndexState × Nat :=
  (⟨"healthy"⟩, c, 0)

/-! ## Socket framing (C5): `sendRequest` of `part_000` (lines 46-75) -/

/-- `String.prototype.includes`: does `pat` occur as a contiguous
subsequence of `l`? -/
def containsSeq (pat : List Char) : List Char → Bool
  | [] => pat.isEmpty
  | c :: rest => pat.isPrefixOf (c :: rest) || containsSeq pat rest

/-- The closing document tag whose appearance in the accumulated buffer
triggers delivery: `'</FbiXml>'`. -/
def terminator : List Char := "</FbiXml>".toList

/-- The per-request read state of `sendRequest`: the accumulated
`responseData` buffer and the list of responses resolved so far (the data
listener is removed at the first resolve, so at most one entry can ever be
appended). -/
structure SockState where
  buffer : List Char
  delivered : List (List Char)
deriving DecidableEq, Repr

/-- The `data` listener of `sendRequest` (part_000 lines 56-63): append the
chunk to the buffer; if the terminator now occurs in the buffer, resolve with
the whole buffer and remove the listener (modelled by making the handler a
no-op once a delivery exists). -/
def dataHandler (s : SockState) (chunk : List Char) : SockState :=
  match s.delivered with
  | [] =>
      let buf := s.buffer ++ chunk
      if containsSeq terminator buf then ⟨buf, [buf]⟩ else ⟨buf, []⟩
  | _ => s

/-- Deliver a sequence of byte chunks to a fresh `sendRequest` read state. -/
def feedChunks (chunks : List (List Char)) : SockState :=
  chunks.foldl dataHandler ⟨[], []⟩

/-! ## Concurrency model for `ensureAuthenticated` (C3)

`server.js` runs on a single-threaded event loop.  One caller's
`ensureAuthenticated` executes synchronously from the `needsLogin` check up
to the `await axios.post` inside `login()` — i.e. up to the point where the
login HTTP request has been *issued* — and only then yields.  The stored
token is assigned when the login response event later resumes that `await`.
An execution is therefore a sequence of two kinds of atomic events: a caller
starting (running its synchronous prefix) and an outstanding login
completing. -/

/-- One atomic event of the event loop: a caller enters
`ensureAuthenticated` and runs to its first suspension point, or an
outstanding login's response arrives. -/
inductive Ev where
  | start
  | complete (r : LoginResult)
deriving DecidableEq, Repr

/-- The interpreter state: the module-level session state plus a count of
login HTTP requests issued so far. -/
structure MultiState where
  server : ServerState
  loginsIssued : Nat
deriving DecidableEq, Repr

/-- One event-loop step.  A `start` issues a login request exactly when the
`needsLogin` guard fires and the credential check inside `login` passes (the
guard reads the *current* token, which an outstanding login has not yet
stored).  A `complete` applies `login`'s post-await assignment. -/
def stepEv (cfg : Config) (now : Int) (ms : MultiState) : Ev → MultiState
  | .start =>
      if needsLogin ms.server now then
        if cfg.hasUsername && cfg.hasPassword then
          { ms with loginsIssued := ms.loginsIssued + 1 }
        else ms
      else ms
  | .complete r =>
      match r with
      | .ok respToken =>
          if jsTruthyStr respToken then
            { ms with server := ⟨respToken, some (now + TOKEN_LIFETIME)⟩ }
          else ms
      | .fail _ => ms

/-- Run a sequence of event-loop events. -/
def runEvents (cfg : Config) (now : Int) (evs : List Ev) (ms : MultiState) :
    MultiState :=
  evs.foldl (stepEv cfg now) ms

end Fishbowl

namespace Fishbowl

/-- Helper: with a truthy token that is not within the refresh threshold of
its (possibly absent) expiry, `ensureAuthenticated` does nothing. -/
theorem ensureAuthenticated_fresh_token (cfg : Config) (now : Int)
    (r : LoginResult) (s : ServerState)
    (htok : jsTruthyStr s.fishbowlToken = true)
    (hexp : s.tokenExpiration = none ∨
      ∃ e, s.tokenExpiration = some e ∧ now ≤ e - TOKEN_REFRESH_THRESHOLD) :
    ensureAuthenticated cfg now r s = ⟨s, 0, true⟩ := by
  have hneed : needsLogin s now = false := by
    unfold needsLogin
    rcases hexp with h | ⟨e, he, hle⟩
    · simp [htok, h, jsTruthyInt]
    · simp [htok, he, jsTruthyInt]
      intro _
      omega
  unfold ensureAuthenticated
  simp [hneed]

/-- Helper: the `needsLogin` guard fires when the token is falsy or a stored
(nonzero) expiry is within the refresh threshold of `now`. -/
theorem needsLogin_true_of (s : ServerState) (now : Int)
    (h : jsTruthyStr s.fishbowlToken = false ∨
      ∃ e, s.tokenExpiration = some e ∧ e ≠ 0 ∧
        now > e - TOKEN_REFRESH_THRESHOLD) :
    needsLogin s now = true := by
  unfold needsLogin
  rcases h with h | ⟨e, he, hne, hgt⟩
  · simp [h]
  · simp [he, jsTruthyInt, hne, hgt]

/-- Helper: when the guard fires, `ensureAuthenticated` performs exactly one
`login()` call, whatever its outcome. -/
theorem ensureAuthenticated_loginCalls_one (cfg : Config) (now : Int)
    (r : LoginResult) (s : ServerState) (h : needsLogin s now = true) :
    (ensureAuthenticated cfg now r s).loginCalls = 1 := by
  unfold ensureAuthenticated
  rw [h]
  rcases hl : login cfg now r s with ⟨s2, res⟩
  cases res <;> simp [hl]

/-- C1: a call to `ensureAuthenticated` with a session token present and not
within the refresh threshold of its stored expiry performs zero login calls
and leaves the stored state unchanged; with no token present, or a stored
expiry within the refresh threshold of the current time, it performs exactly
one login call.  The `Index.js` variant (no expiry tracking) behaves the
same way on its token. -/
theorem C1_ensureAuthenticated_policy (cfg : Config) (now : Int)
    (r rI : LoginResult) (s : ServerState) (c : IndexState) :
    (jsTruthyStr s.fishbowlToken = true →
      (s.tokenExpiration = none ∨
        ∃ e, s.tokenExpiration = some e ∧ now ≤ e - TOKEN_REFRESH_THRESHOLD) →
      ensureAuthenticated cfg now r s = ⟨s, 0, true⟩)
    ∧ ((jsTruthyStr s.fishbowlToken = false ∨
        ∃ e, s.tokenExpiration = some e ∧ e ≠ 0 ∧
          now > e - TOKEN_REFRESH_THRESHOLD) →
      (ensureAuthenticated cfg now r s).loginCalls = 1)
    ∧ (jsTruthyStr c.token = true → idxEnsureAuthenticated rI c = (c, .ok (), 0))
    ∧ (jsTruthyStr c.token = false →
        (idxEnsureAuthenticated rI c).2.2 = 1) := by
  refine ⟨?_, ?_, ?_, ?_⟩
  · exact fun htok hexp => ensureAuthenticated_fresh_token cfg now r s htok hexp
  · exact fun h =>
      ensureAuthenticated_loginCalls_one cfg now r s (needsLogin_true_of s now h)
  · intro h
    unfold idxEnsureAuthenticated
    simp [h]
  · intro h
    unfold idxEnsureAuthenticated
    rcases hl : idxLogin rI c with ⟨c2, res⟩
    cases res <;> simp [h, hl]

/-- C1 witness: the policy evaluated at concrete states — a fresh token far
from expiry (no login), and an empty session (one login); likewise for the
`Index.js` variant. -/
theorem C1_ensureAuthenticated_policy_witness :
    ensureAuthenticated ⟨true, true⟩ 0 (.ok (some "t2"))
        ⟨some "tok", some 900000000⟩ = ⟨⟨some "tok", some 900000000⟩, 0, true⟩
    ∧ (ensureAuthenticated ⟨true, true⟩ 0 (.ok (some "t2"))
        ⟨none, none⟩).loginCalls = 1
    ∧ idxEnsureAuthenticated (.ok (some "t2")) ⟨some "tok"⟩ =
        (⟨some "tok"⟩, .ok (), 0)
    ∧ (idxEnsureAuthenticated (.ok (some "t2")) ⟨none⟩).2.2 = 1 := by
  refine ⟨?_, ?_, ?_, ?_⟩
  · exact (C1_ensureAuthenticated_policy ⟨true, true⟩ 0 (.ok (some "t2"))
      (.ok (some "t2")) ⟨some "tok", some 900000000⟩ ⟨some "tok"⟩).1
      (by decide) (Or.inr ⟨900000000, rfl, by decide⟩)
  · exact (C1_ensureAuthenticated_policy ⟨true, true⟩ 0 (.ok (some "t2"))
      (.ok (some "t2")) ⟨none, none⟩ ⟨none⟩).2.1 (Or.inl (by decide))
  · exact (C1_ensureAuthenticated_policy ⟨true, true⟩ 0 (.ok (some "t2"))
      (.ok (some "t2")) ⟨none, none⟩ ⟨some "tok"⟩).2.2.1 (by decide)
  · exact (C1_ensureAuthenticated_policy ⟨true, true⟩ 0 (.ok (some "t2"))
      (.ok (some "t2")) ⟨none, none⟩ ⟨none⟩).2.2.2 (by decide)

/-- C4 counterexample: `login` invoked while a stale token is stored (the
state reached on `makeRequest`'s 401 path) fails with a transport error and
leaves the old token in place — the stored session is NOT left absent, so
the claim as stated is false. -/
theorem C4_login_failure_counterexample :
    login ⟨true, true⟩ 0 (.fail "connect ECONNREFUSED")
        ⟨some "staleTok", some 999⟩ =
      (⟨some "staleTok", some 999⟩, .error "connect ECONNREFUSED")
    ∧ jsTruthyStr (login ⟨true, true⟩ 0 (.fail "connect ECONNREFUSED")
        ⟨some "staleTok", some 999⟩).1.fishbowlToken = true := by
  decide

/-- C4 amended: every failing `login` invocation leaves the stored session
state exactly as it was (hence absent whenever it was absent before) and
propagates the failure; in all four variants a failed attempt never stores a
token. -/
theorem C4_login_failure_leaves_state :
    (∀ (cfg : Config) (now : Int) (r : LoginResult) (s s2 : ServerState)
        (m : String), login cfg now r s = (s2, Except.error m) → s2 = s)
    ∧ (∀ (r : LoginResult) (c c2 : IndexState) (m : String),
        idxLogin r c = (c2, Except.error m) → c2 = c)
    ∧ (∀ (r : LoginResp) (s s2 : XmlState) (m : String),
        p0_login r s = (s2, Except.error m) →
          s2.sessionToken = s.sessionToken ∧ s2.userId = s.userId)
    ∧ (∀ (r : P4LoginResp) (s s2 : XmlState) (m : String),
        p4_login r s = (s2, Except.error m) →
          s2.sessionToken = s.sessionToken ∧ s2.userId = s.userId) := by
  refine ⟨?_, ?_, ?_, ?_⟩
  · intro cfg now r s s2 m h
    unfold login at h
    split at h
    · exact ((Prod.ext_iff.mp h).1).symm
    · split at h
      · split at h
        · exact absurd (Prod.ext_iff.mp h).2 (by simp)
        · exact ((Prod.ext_iff.mp h).1).symm
      · exact ((Prod.ext_iff.mp h).1).symm
  · intro r c c2 m h
    unfold idxLogin at h
    split at h
    · split at h
      · exact absurd (Prod.ext_iff.mp h).2 (by simp)
      · exact ((Prod.ext_iff.mp h).1).symm
    · exact ((Prod.ext_iff.mp h).1).symm
  · intro r s s2 m h
    unfold p0_login at h
    split at h
    · split at h
      · exact absurd (Prod.ext_iff.mp h).2 (by simp)
      · have h1 := ((Prod.ext_iff.mp h).1).symm
        subst h1
        exact ⟨rfl, rfl⟩
    · have h1 := ((Prod.ext_iff.mp h).1).symm
      subst h1
      exact ⟨rfl, rfl⟩
  · intro r s s2 m h
    unfold p4_login at h
    split at h
    · split at h
      · split at h
        · exact absurd (Prod.ext_iff.mp h).2 (by simp)
        · have h1 := ((Prod.ext_iff.mp h).1).symm
          subst h1
          exact ⟨rfl, rfl⟩
      · have h1 := ((Prod.ext_iff.mp h).1).symm
        subst h1
        exact ⟨rfl, rfl⟩
    · have h1 := ((Prod.ext_iff.mp h).1).symm
      subst h1
      exact ⟨rfl, rfl⟩

/-- C4 witness: the amended statement applied at concrete failing logins in
each variant. -/
theorem C4_login_failure_leaves_state_witness :
    ((⟨none, none⟩ : ServerState) = ⟨none, none⟩)
    ∧ ((⟨none⟩ : IndexState) = ⟨none⟩)
    ∧ ((⟨true, none, none⟩ : XmlState).sessionToken = none) := by
  have h := C4_login_failure_leaves_state
  refine ⟨?_, ?_, ?_⟩
  · exact h.1 ⟨true, true⟩ 0 (.fail "boom") ⟨none, none⟩ ⟨none, none⟩ "boom"
      (by decide)
  · exact h.2.1 (.fail "boom") ⟨none⟩ ⟨none⟩ "Login failed: boom" (by decide)
  · exact ((h.2.2.1 ⟨some "1001", some "bad", none⟩ ⟨false, none, none⟩
      ⟨true, none, none⟩ "Login failed: bad" (by decide)).1).trans rfl

/-- C8 counterexample: the `/health` handlers of `part_000` and `Index.js`
return identical responses in an unauthenticated and an authenticated state,
although the two states differ in authentication — so their responses do not
report the current authentication state, refuting the claim for two of its
three cited handlers. -/
theorem C8_health_counterexample :
    (p0_health ⟨false, none, none⟩).1 = (p0_health ⟨true, some "tok", some "1"⟩).1
    ∧ (idx_health ⟨none⟩).1 = (idx_health ⟨some "tok"⟩).1
    ∧ jsTruthyStr ((⟨false, none, none⟩ : XmlState).sessionToken) ≠
        jsTruthyStr ((⟨true, some "tok", some "1"⟩ : XmlState).sessionToken) := by
  decide

/-- C8 amended: every health handler reports liveness, makes no upstream
call, and leaves the state unchanged; but only `server.js`'s `/api/health`
additionally reports the authentication state (`authenticated` is the token's
truthiness) — `part_000`'s and `Index.js`'s `/health` return a constant body
with no authentication information. -/
theorem C8_health_reports (now : Int) (s : ServerState) (x : XmlState)
    (c : IndexState) :
    (serverHealth now s).1.status = "ok"
    ∧ (serverHealth now s).1.authenticated = jsTruthyStr s.fishbowlToken
    ∧ (serverHealth now s).2 = (s, 0)
    ∧ p0_health x = (⟨"healthy", "1.0.0"⟩, x, 0)
    ∧ idx_health c = (⟨"healthy"⟩, c, 0) := by
  exact ⟨rfl, rfl, rfl, rfl, rfl⟩

/-- C9: `logout` called with no session token held returns a success result
("Not logged in" / "Already logged out") without any upstream request, and
the state is unchanged, in all three variants. -/
theorem C9_logout_no_session (conn : Bool) (uid : Option String)
    (u : Except String Unit) :
    p0_logout u ⟨conn, none, uid⟩ =
      (⟨conn, none, uid⟩, ⟨true, some "Not logged in", none⟩, 0)
    ∧ p4_logout u ⟨conn, none, uid⟩ =
      (⟨conn, none, uid⟩, ⟨true, some "Not logged in", none⟩, 0)
    ∧ idxLogout u ⟨none⟩ =
      (⟨none⟩, .ok ⟨true, some "Already logged out", none⟩, 0) := by
  exact ⟨rfl, rfl, rfl⟩

/-- C10: `logout` in the XML/socket variants, called with a session token
held, clears `sessionToken` and `userId` whether the upstream round-trip
succeeds or fails, and never throws: on failure it returns a structured
`{success: false, error}` result. -/
theorem C10_logout_clears_session (conn : Bool) (t : String)
    (uid : Option String) (u : Except String Unit) (ht : t ≠ "") :
    ((p0_logout u ⟨conn, some t, uid⟩).1.sessionToken = none
      ∧ (p0_logout u ⟨conn, some t, uid⟩).1.userId = none
      ∧ (u = .ok () → p0_logout u ⟨conn, some t, uid⟩ =
          (⟨conn, none, none⟩, ⟨true, some "Successfully logged out", none⟩, 1))
      ∧ (∀ m, u = .error m → p0_logout u ⟨conn, some t, uid⟩ =
          (⟨conn, none, none⟩, ⟨false, none, some m⟩, 1)))
    ∧ ((p4_logout u ⟨conn, some t, uid⟩).1.sessionToken = none
      ∧ (p4_logout u ⟨conn, some t, uid⟩).1.userId = none
      ∧ (u = .ok () → p4_logout u ⟨conn, some t, uid⟩ =
          (⟨conn, none, none⟩,
           ⟨true, some "Successfully logged out of Fishbowl", none⟩, 1))
      ∧ (∀ m, u = .error m → p4_logout u ⟨conn, some t, uid⟩ =
          (⟨conn, none, none⟩, ⟨false, none, some m⟩, 1))) := by
  have htr : (!jsTruthyStr (some t)) = false := by simp [jsTruthyStr, ht]
  cases u with
  | ok v =>
      cases v
      refine ⟨⟨?_, ?_, fun _ => ?_, fun m2 hm => ?_⟩,
              ⟨?_, ?_, fun _ => ?_, fun m2 hm => ?_⟩⟩
      · simp [p0_logout, htr]
      · simp [p0_logout, htr]
      · simp [p0_logout, htr]
      · cases hm
      · simp [p4_logout, htr]
      · simp [p4_logout, htr]
      · simp [p4_logout, htr]
      · cases hm
  | error m =>
      refine ⟨⟨?_, ?_, fun hok => ?_, fun m2 hm => ?_⟩,
              ⟨?_, ?_, fun hok => ?_, fun m2 hm => ?_⟩⟩
      · simp [p0_logout, htr]
      · simp [p0_logout, htr]
      · cases hok
      · cases hm
        simp [p0_logout, htr]
      · simp [p4_logout, htr]
      · simp [p4_logout, htr]
      · cases hok
      · cases hm
        simp [p4_logout, htr]

/-- C10 witness: concrete logout calls with a held token, one succeeding and
one failing upstream. -/
theorem C10_logout_clears_session_witness :
    (p0_logout (.ok ()) ⟨true, some "tok", some "7"⟩).1.sessionToken = none
    ∧ p4_logout (.error "socket hang up") ⟨true, some "tok", some "7"⟩ =
        (⟨true, none, none⟩, ⟨false, none, some "socket hang up"⟩, 1) := by
  refine ⟨(C10_logout_clears_session true "tok" (some "7") (.ok ())
    (by decide)).1.1, ?_⟩
  exact (C10_logout_clears_session true "tok" (some "7")
    (.error "socket hang up") (by decide)).2.2.2.2 "socket hang up" rfl

/-- C2 counterexample: in the XML variant (`part_000`), an upstream response
with status `1001` / "Invalid ticket" while a session token is held performs
zero re-logins and zero retries — the error is surfaced after the single
attempt, so the claim's XML half is false. -/
theorem C2_xml_no_retry_counterexample :
    p0_getInventory ⟨some "1000", none, some ("k", "u")⟩
        ⟨some "1001", some "Invalid ticket"⟩ ⟨true, some "tok", some "1"⟩ =
      ⟨⟨true, some "tok", some "1"⟩,
        .error "Failed to get inventory: Invalid ticket", 1, 0⟩
    ∧ (0 : Nat) ≠ 1 := by
  decide

/-- C2 amended: the REST upstream's `makeRequest` retries exactly once after
one re-login on a first-attempt 401 (returning the second attempt's result on
success, surfacing the second failure with no third attempt, and surfacing
the login failure with no retry when the re-login itself fails); the XML
variant performs no re-login and no retry — an invalid-ticket status is
surfaced after the single attempt. -/
theorem C2_retry_once (cfg : Config) (now : Int) (s : ServerState)
    (loginR : LoginResult) :
    (∀ d second, makeRequest cfg now s (.ok d) loginR second = ⟨s, .ok d, 1, 0⟩)
    ∧ (∀ m d s2, login cfg now loginR s = (s2, .ok true) →
        makeRequest cfg now s (.errStatus 401 m) loginR (.ok d) =
          ⟨s2, .ok d, 2, 1⟩)
    ∧ (∀ m code m2 s2, login cfg now loginR s = (s2, .ok true) →
        makeRequest cfg now s (.errStatus 401 m) loginR (.errStatus code m2) =
          ⟨s2, .error m2, 2, 1⟩)
    ∧ (∀ m em s2 second, login cfg now loginR s = (s2, .error em) →
        makeRequest cfg now s (.errStatus 401 m) loginR second =
          ⟨s2, .error em, 1, 1⟩)
    ∧ (∀ (x : XmlState) (lr : LoginResp) (code msg : String),
        jsTruthyStr x.sessionToken = true → code ≠ "1000" →
        p0_getInventory lr ⟨some code, some msg⟩ x =
          ⟨x, .error ("Failed to get inventory: " ++ msg), 1, 0⟩) := by
  refine ⟨?_, ?_, ?_, ?_, ?_⟩
  · intro d second
    rfl
  · intro m d s2 h
    simp [makeRequest, h]
  · intro m code m2 s2 h
    simp [makeRequest, h]
  · intro m em s2 second h
    simp [makeRequest, h]
  · intro x lr code msg htok hcode
    unfold p0_getInventory
    simp [htok, p0_checkInventoryStatus, hcode]

/-- C2 witness: the amended statement at concrete inputs — a 401 first
attempt followed by a successful re-login and retry, and an XML invalid
ticket surfaced with no re-login. -/
theorem C2_retry_once_witness :
    makeRequest ⟨true, true⟩ 0 ⟨some "old", some 999⟩
        (.errStatus 401 "Unauthorized") (.ok (some "newTok")) (.ok "DATA") =
      ⟨⟨some "newTok", some 86400000⟩, .ok "DATA", 2, 1⟩
    ∧ p0_getInventory ⟨some "1000", none, some ("k", "u")⟩
        ⟨some "1001", some "Bad ticket"⟩ ⟨true, some "tok", none⟩ =
      ⟨⟨true, some "tok", none⟩,
        .error "Failed to get inventory: Bad ticket", 1, 0⟩ := by
  refine ⟨?_, ?_⟩
  · exact (C2_retry_once ⟨true, true⟩ 0 ⟨some "old", some 999⟩
      (.ok (some "newTok"))).2.1 "Unauthorized" "DATA"
      ⟨some "newTok", some 86400000⟩ (by decide)
  · exact (C2_retry_once ⟨true, true⟩ 0 ⟨some "old", some 999⟩
      (.ok (some "newTok"))).2.2.2.2 ⟨true, some "tok", none⟩
      ⟨some "1000", none, some ("k", "u")⟩ "1001" "Bad ticket"
      (by decide) (by decide)

/-- C6 counterexample: `part_002`'s `getInventory` performs no status-code
check — a decoded response with status `1001` is returned as a success, so
"succeeds exactly when the status code equals 1000" is false for this cited
operation. -/
theorem C6_status_counterexample :
    p2_getInventory ⟨some "1000", none, some ("k", "u")⟩
        ⟨some "1001", some "Invalid ticket"⟩ ⟨true, some "tok", some "1"⟩ =
      ⟨⟨true, some "tok", some "1"⟩,
        .ok ⟨some "1001", some "Invalid ticket"⟩, 1, 0⟩ := by
  decide

/-- C6 amended: in `part_000`'s `getInventory` a present status code other
than `'1000'` fails with the upstream message and `'1000'` succeeds, but a
missing status code also succeeds; `part_002`'s `getInventory` performs no
status check and returns the decoded result whatever the status code. -/
theorem C6_status_sentinel (x : XmlState) (lr : LoginResp)
    (htok : jsTruthyStr x.sessionToken = true) :
    (∀ m, p0_getInventory lr ⟨some "1000", m⟩ x =
        ⟨x, .ok ⟨some "1000", m⟩, 1, 0⟩)
    ∧ (∀ code msg, code ≠ "1000" →
        p0_getInventory lr ⟨some code, some msg⟩ x =
          ⟨x, .error ("Failed to get inventory: " ++ msg), 1, 0⟩)
    ∧ (∀ m, p0_getInventory lr ⟨none, m⟩ x = ⟨x, .ok ⟨none, m⟩, 1, 0⟩)
    ∧ (∀ r, p2_getInventory lr r x = ⟨x, .ok r, 1, 0⟩) := by
  refine ⟨?_, ?_, ?_, ?_⟩
  · intro m
    unfold p0_getInventory
    simp [htok, p0_checkInventoryStatus]
  · intro code msg hcode
    unfold p0_getInventory
    simp [htok, p0_checkInventoryStatus, hcode]
  · intro m
    unfold p0_getInventory
    simp [htok, p0_checkInventoryStatus]
  · intro r
    unfold p2_getInventory
    simp [htok]

/-- C6 witness: the amended statement at a concrete authenticated state with
a success response, a failure response, and `part_002`'s unchecked pass-
through. -/
theorem C6_status_sentinel_witness :
    p0_getInventory ⟨some "1000", none, some ("k", "u")⟩
        ⟨some "1000", none⟩ ⟨true, some "tok", some "1"⟩ =
      ⟨⟨true, some "tok", some "1"⟩, .ok ⟨some "1000", none⟩, 1, 0⟩
    ∧ p0_getInventory ⟨some "1000", none, some ("k", "u")⟩
        ⟨some "1001", some "X"⟩ ⟨true, some "tok", some "1"⟩ =
      ⟨⟨true, some "tok", some "1"⟩, .error "Failed to get inventory: X", 1, 0⟩
    ∧ p2_getInventory ⟨some "1000", none, some ("k", "u")⟩
        ⟨some "9999", none⟩ ⟨true, some "tok", some "1"⟩ =
      ⟨⟨true, some "tok", some "1"⟩, .ok ⟨some "9999", none⟩, 1, 0⟩ := by
  have h := C6_status_sentinel ⟨true, some "tok", some "1"⟩
    ⟨some "1000", none, some ("k", "u")⟩ (by decide)
  exact ⟨h.1 none, h.2.1 "1001" "X" (by decide), h.2.2.2 ⟨some "9999", none⟩⟩

/-- C7 counterexample: `Index.js`'s `/mcp/execute` `getInventory` case does
not validate `partNumber` — with `parameters = {}` and no prior session it
performs a login and the upstream query (two network calls) and even
succeeds, instead of failing with a validation error before any network
call. -/
theorem C7_validation_counterexample :
    idx_executeGetInventory (some ⟨none⟩) (.ok (some "tok")) (.ok "data")
        ⟨none⟩ = (⟨some "tok"⟩, .ok "data", 2) := by
  decide

/-- C7 amended: `part_000`'s `/mcp/execute` `getInventory` case fails with
"Part number is required" and zero network calls when `parameters` is absent
or `partNumber` is falsy; `Index.js`'s case performs no such validation — it
forwards directly, and with no prior session at least one network call is
made even though `partNumber` is missing. -/
theorem C7_validation_before_network :
    (∀ lr opR s, p0_executeGetInventory none lr opR s =
        (s, .error "Part number is required", 0))
    ∧ (∀ lr opR s pn, jsTruthyStr pn = false →
        p0_executeGetInventory (some ⟨pn⟩) lr opR s =
          (s, .error "Part number is required", 0))
    ∧ (∀ lr httpR c p, idx_executeGetInventory (some p) lr httpR c =
        idx_getInventory lr httpR c)
    ∧ (∀ lr httpR,
        1 ≤ (idx_executeGetInventory (some ⟨none⟩) lr httpR ⟨none⟩).2.2) := by
  refine ⟨?_, ?_, ?_, ?_⟩
  · intro lr opR s
    rfl
  · intro lr opR s pn h
    unfold p0_executeGetInventory
    simp [h]
  · intro lr httpR c p
    rfl
  · intro lr httpR
    show 1 ≤ (idx_getInventory lr httpR ⟨none⟩).2.2
    unfold idx_getInventory idxEnsureAuthenticated
    rcases hl : idxLogin lr ⟨none⟩ with ⟨c2, res⟩
    cases res <;> cases httpR <;> simp [jsTruthyStr, hl]

/-- C7 witness: the amended statement at concrete inputs — a missing
`parameters` object and an empty-string part number in `part_000`, and a
missing `partNumber` in `Index.js` with no session. -/
theorem C7_validation_before_network_witness :
    p0_executeGetInventory none ⟨some "1000", none, some ("k", "u")⟩
        ⟨some "1000", none⟩ ⟨true, some "tok", none⟩ =
      (⟨true, some "tok", none⟩, .error "Part number is required", 0)
    ∧ p0_executeGetInventory (some ⟨some ""⟩)
        ⟨some "1000", none, some ("k", "u")⟩ ⟨some "1000", none⟩
        ⟨true, some "tok", none⟩ =
      (⟨true, some "tok", none⟩, .error "Part number is required", 0)
    ∧ 1 ≤ (idx_executeGetInventory (some ⟨none⟩) (.fail "refused")
        (.ok "data") ⟨none⟩).2.2 := by
  have h := C7_validation_before_network
  refine ⟨?_, ?_, ?_⟩
  · exact h.1 ⟨some "1000", none, some ("k", "u")⟩ ⟨some "1000", none⟩
      ⟨true, some "tok", none⟩
  · exact h.2.1 ⟨some "1000", none, some ("k", "u")⟩ ⟨some "1000", none⟩
      ⟨true, some "tok", none⟩ (some "") (by decide)
  · exact h.2.2.2 (.fail "refused") (.ok "data")

/-- Helper: `n` consecutive `start` events from a state whose guard fires
issue exactly `n` logins and leave the session state unchanged. -/
theorem runEvents_starts (cfg : Config) (now : Int)
    (hcu : cfg.hasUsername = true) (hcp : cfg.hasPassword = true)
    (s : ServerState) (hs : needsLogin s now = true) (n k : Nat) :
    runEvents cfg now (List.replicate n .start) ⟨s, k⟩ = ⟨s, k + n⟩ := by
  induction n generalizing k with
  | zero => rfl
  | succ n ih =>
      rw [List.replicate_succ]
      unfold runEvents at ih ⊢
      rw [List.foldl_cons]
      have hstep : stepEv cfg now ⟨s, k⟩ .start = ⟨s, k + 1⟩ := by
        simp [stepEv, hs, hcu, hcp]
      rw [hstep, ih (k + 1)]
      have : k + 1 + n = k + (n + 1) := by omega
      rw [this]

/-- C3 counterexample: two concurrent `ensureAuthenticated` calls with no
prior session — both run their synchronous check before either login
completes — issue two login calls, not exactly one: the code has no
single-flight coalescing. -/
theorem C3_single_flight_counterexample :
    (runEvents ⟨true, true⟩ 0 [.start, .start]
      ⟨⟨none, none⟩, 0⟩).loginsIssued = 2
    ∧ (2 : Nat) ≠ 1 := by
  decide

/-- C3 amended: with no prior session and credentials configured, `n`
concurrent `ensureAuthenticated` callers that all reach their check before
the first login response arrives each issue their own login — `n` login
calls in total (no coalescing of concurrent callers). -/
theorem C3_no_single_flight (cfg : Config) (now : Int) (s : ServerState)
    (n : Nat) (hcu : cfg.hasUsername = true) (hcp : cfg.hasPassword = true)
    (hs : needsLogin s now = true) :
    (runEvents cfg now (List.replicate n .start) ⟨s, 0⟩).loginsIssued = n := by
  rw [runEvents_starts cfg now hcu hcp s hs n 0]
  simp

/-- C3 witness: three concurrent callers with no prior session issue three
logins. -/
theorem C3_no_single_flight_witness :
    (runEvents ⟨true, true⟩ 0 (List.replicate 3 .start)
      ⟨⟨none, none⟩, 0⟩).loginsIssued = 3 :=
  C3_no_single_flight ⟨true, true⟩ 0 ⟨none, none⟩ 3 rfl rfl (by decide)

/-- Helper: once a response has been delivered, the (removed) data listener
ignores all further chunks. -/
theorem foldl_dataHandler_stuck (chunks : List (List Char)) (s : SockState)
    (h : s.delivered ≠ []) : chunks.foldl dataHandler s = s := by
  induction chunks with
  | nil => rfl
  | cons c cs ih =>
      rcases hd : s.delivered with _ | ⟨a, l⟩
      · exact absurd hd h
      · rw [List.foldl_cons]
        have hstep : dataHandler s c = s := by
          unfold dataHandler
          rw [hd]
        rw [hstep, ih]

/-- Helper: the accumulate-until-terminator invariant of the `sendRequest`
data listener, from an arbitrary not-yet-matching buffer: either nothing has
been delivered, the buffer holds everything received so far, and the
terminator has not appeared in it; or exactly one response was delivered,
it contains the terminator, the buffer equals it, and it is an initial
segment of everything received. -/
theorem feed_spec (chunks : List (List Char)) (buf : List Char)
    (hbuf : containsSeq terminator buf = false) :
    ((chunks.foldl dataHandler ⟨buf, []⟩).delivered = []
      ∧ (chunks.foldl dataHandler ⟨buf, []⟩).buffer = buf ++ chunks.flatten
      ∧ containsSeq terminator (buf ++ chunks.flatten) = false)
    ∨ (∃ r, (chunks.foldl dataHandler ⟨buf, []⟩).delivered = [r]
        ∧ containsSeq terminator r = true
        ∧ (chunks.foldl dataHandler ⟨buf, []⟩).buffer = r
        ∧ ∃ t, r ++ t = buf ++ chunks.flatten) := by
  induction chunks generalizing buf with
  | nil =>
      left
      exact ⟨rfl, by simp, by simpa using hbuf⟩
  | cons c cs ih =>
      rw [List.foldl_cons]
      have hd : dataHandler ⟨buf, []⟩ c =
          if containsSeq terminator (buf ++ c) then ⟨buf ++ c, [buf ++ c]⟩
          else ⟨buf ++ c, []⟩ := rfl
      by_cases hc : containsSeq terminator (buf ++ c) = true
      · rw [hd, if_pos hc, foldl_dataHandler_stuck cs _ (by simp)]
        right
        refine ⟨buf ++ c, rfl, hc, rfl, cs.flatten, ?_⟩
        simp
      · have hc' : containsSeq terminator (buf ++ c) = false := by
          revert hc
          cases containsSeq terminator (buf ++ c) <;> simp
        rw [hd, if_neg (by simp [hc'])]
        rcases ih (buf ++ c) hc' with ⟨h1, h2, h3⟩ | ⟨r, h1, h2, h3, t, h4⟩
        · left
          refine ⟨h1, ?_, ?_⟩
          · rw [h2]
            simp
          · simpa using h3
        · right
          refine ⟨r, h1, h2, h3, t, ?_⟩
          rw [h4]
          simp

/-- C5: for every sequence of byte chunks delivered during one request, the
listener delivers at most one response; any delivered response contains the
terminator and is an initial segment of the accumulated bytes; whenever the
terminator occurs in the accumulated bytes, exactly one response is
delivered; and if nothing was delivered, the terminator never appeared. -/
theorem C5_socket_framing (chunks : List (List Char)) :
    (feedChunks chunks).delivered.length ≤ 1
    ∧ (∀ r ∈ (feedChunks chunks).delivered,
        containsSeq terminator r = true ∧ ∃ t, r ++ t = chunks.flatten)
    ∧ (containsSeq terminator chunks.flatten = true →
        ∃ r, (feedChunks chunks).delivered = [r])
    ∧ ((feedChunks chunks).delivered = [] →
        containsSeq terminator chunks.flatten = false) := by
  have hbase : containsSeq terminator ([] : List Char) = false := by decide
  have hspec := feed_spec chunks [] hbase
  unfold feedChunks
  rcases hspec with ⟨h1, _, h3⟩ | ⟨r, h1, h2, _, t, h4⟩
  · refine ⟨?_, ?_, ?_, ?_⟩
    · rw [h1]
      simp
    · rw [h1]
      intro r hr
      cases hr
    · intro hterm
      exact absurd hterm (by simpa using h3)
    · intro _
      simpa using h3
  · refine ⟨?_, ?_, ?_, ?_⟩
    · rw [h1]
      simp
    · rw [h1]
      intro r' hr'
      have hrr : r' = r := by simpa using hr'
      subst hrr
      exact ⟨h2, t, by simpa using h4⟩
    · intro _
      exact ⟨r, h1⟩
    · intro hnil
      rw [h1] at hnil
      cases hnil

/-- C5 witness: a response split across three chunks (the terminator
completing only in the third) is delivered exactly once, and the delivered
buffer is the accumulated data. -/
theorem C5_socket_framing_witness :
    (feedChunks ["<FbiXml><A/>".toList, "</Fbi".toList, "Xml>".toList,
      "extra".toList]).delivered.length ≤ 1
    ∧ (∃ r, (feedChunks ["<FbiXml><A/>".toList, "</Fbi".toList,
        "Xml>".toList, "extra".toList]).delivered = [r]) := by
  refine ⟨(C5_socket_framing ["<FbiXml><A/>".toList, "</Fbi".toList,
    "Xml>".toList, "extra".toList]).1, ?_⟩
  exact (C5_socket_framing ["<FbiXml><A/>".toList, "</Fbi".toList,
    "Xml>".toList, "extra".toList]).2.2.1 (by decide)

end Fishbowl
